import Mathlib

unseal Rat.mul Rat.add Rat.sub Rat.inv

/-!
Verification of `tools/cgroup/iocost_monitor.py` (blk-iocost cgroup monitor).

The script is shallowly embedded: Python ints become `Int`/`Nat`, Python float
arithmetic (which here only divides exact integers) becomes `Rat`, the drgn
object graph becomes explicit Lean structures, and the fallible radix-tree
lookup becomes `Option`.  Kernel-provided constants (`HWEIGHT_WHOLE`,
`NR_USAGE_SLOTS`, `VTIME_PER_USEC`, ...) are read at runtime by the script, so
they are parameters (`Consts`) of every derivation.
-/

/-- Kernel constants read by the script at startup
(`prog['NR_USAGE_SLOTS']` etc., iocost_monitor.py lines 46-54). -/
structure Consts where
  IOC_RUNNING : Int
  NR_USAGE_SLOTS : Nat
  HWEIGHT_WHOLE : Nat
  VTIME_PER_SEC : Int
  VTIME_PER_USEC : Int
  AUTOP_SSD_FAST : Nat
  AUTOP_SSD_DFL : Nat
  AUTOP_SSD_QD1 : Nat
  AUTOP_HDD : Nat
deriving DecidableEq

/-- Raw fields of `struct ioc` (the per-device controller) that the script
reads: `ioc.enabled`, `ioc.running`, `ioc.period_us`, `ioc.period_at`,
`ioc.period_at_vtime`, `ioc.vtime_rate.counter`, `ioc.busy_level`,
`ioc.autop_idx`, `ioc.user_cost_model`, `ioc.user_qos_params`. -/
structure IocRaw where
  enabled : Int
  running : Int
  period_us : Int
  period_at : Int
  period_at_vtime : Int
  vtime_rate : Int
  busy_level : Int
  autop_idx : Nat
  user_cost_model : Int
  user_qos_params : Int
deriving DecidableEq

/-- Raw fields of `struct ioc_gq` (per-cgroup, per-device accounting node)
read by `IocgStat.__init__`.  `active_list_empty` embeds
`list_empty(iocg.active_list)`. -/
structure Iocg where
  active_list_empty : Bool
  weight : Int
  active : Int
  inuse : Int
  hweight_active : Int
  hweight_inuse : Int
  address : Nat
  done_vtime : Int
  vtime : Int
  abs_vdebt : Int
  usage_idx : Nat
  usages : List Nat
deriving DecidableEq

/-- A `struct blkcg_gq` as the script uses it: `blkg.pd[plid]` is the
per-policy slot (null embeds as `none`), plus the two blkg-level counters
`blkg.use_delay.counter` and `blkg.delay_nsec.counter` that
`IocgStat.__init__` reads through `iocg.pd.blkg`. -/
structure Blkg where
  pd : Option Iocg
  use_delay : Int
  delay_nsec : Int
deriving DecidableEq

/-- A `struct blkcg` node of the cgroup hierarchy as the walker sees it:
its kernfs name, whether `css.flags` has `CSS_ONLINE` set, its per-queue
`blkg_tree` radix tree (keyed by queue id), and its css children in sibling
order. -/
inductive Blkcg where
  | mk : String → Bool → List (Nat × Blkg) → List Blkcg → Blkcg

def Blkcg.name : Blkcg → String
  | .mk n _ _ _ => n

def Blkcg.online : Blkcg → Bool
  | .mk _ o _ _ => o

def Blkcg.blkgTree : Blkcg → List (Nat × Blkg)
  | .mk _ _ t _ => t

def Blkcg.children : Blkcg → List Blkcg
  | .mk _ _ _ c => c

/-- Embeds `radix_tree_lookup(blkcg.blkg_tree, q_id)`: first binding of the key, or
none (a null address) when the key is absent. -/
def lookupTree (t : List (Nat × Blkg)) (qid : Nat) : Option Blkg :=
  match t with
  | [] => none
  | (k, b) :: rest => if k = qid then some b else lookupTree rest qid

mutual

/-- Embeds `BlkgIterator.walk` (iocost_monitor.py lines 67-83): prune the subtree if
the member is dying and `include_dying` is unset; build the path; look up the
blkg for the target queue and prune the subtree if the lookup yields a null
address; otherwise append `(path, blkg)` and recurse into the css children in
sibling order. -/
def BlkgIterator.walk (includeDying : Bool) (qid : Nat) :
    Blkcg → String → List (String × Blkg)
  | .mk nm onl tree children, parentPath =>
    if !includeDying && !onl then []
    else
      let path := if parentPath ≠ "" then parentPath ++ "/" ++ nm else nm
      match lookupTree tree qid with
      | none => []
      | some blkg =>
        ((if path = "" then "/" else path), blkg) ::
          BlkgIterator.walkChildren includeDying qid children path

/-- The `for c in list_for_each_entry(...): self.walk(c, q_id, path)` loop:
children contribute their walks in order. -/
def BlkgIterator.walkChildren (includeDying : Bool) (qid : Nat) :
    List Blkcg → String → List (String × Blkg)
  | [], _ => []
  | c :: cs, path =>
      BlkgIterator.walk includeDying qid c path ++
        BlkgIterator.walkChildren includeDying qid cs path

end

/-- Embeds `BlkgIterator(root_blkcg, q_id, include_dying=False)`: the walk starts at
the root with the empty parent path. -/
def BlkgIterator.blkgs (root : Blkcg) (qid : Nat)
    (includeDying : Bool := false) : List (String × Blkg) :=
  BlkgIterator.walk includeDying qid root ""

/-- The `autop_names` dict lookup with the fallback of lines 108-111.  A
Python dict literal keeps the last binding of a duplicated key, so the keys
are tested in reverse insertion order. -/
def autopName (C : Consts) (idx : Nat) : String :=
  if idx = C.AUTOP_HDD then "hdd"
  else if idx = C.AUTOP_SSD_QD1 then "ssd_qd1"
  else if idx = C.AUTOP_SSD_DFL then "ssd_dfl"
  else if idx = C.AUTOP_SSD_FAST then "ssd_fast"
  else "?"

/-- The derived controller statistics built by `IocStat.__init__`
(iocost_monitor.py lines 94-111).  Exact-integer divisions performed on
Python floats are carried out in `Rat`. -/
structure IocStat where
  enabled : Int
  running : Bool
  period_ms : Rat
  period_at : Rat
  vperiod_at : Rat
  vrate_pct : Rat
  busy_level : Int
  autop_idx : Nat
  user_cost_model : Int
  user_qos_params : Int
  autop_name : String
deriving DecidableEq

/-- Embeds `IocStat.__init__`, field for field. -/
def IocStat.ofIoc (C : Consts) (ioc : IocRaw) : IocStat :=
  { enabled := ioc.enabled
    running := ioc.running = C.IOC_RUNNING
    period_ms := (ioc.period_us : Rat) / 1000
    period_at := (ioc.period_at : Rat) / 1000000
    vperiod_at := (ioc.period_at_vtime : Rat) / (C.VTIME_PER_SEC : Rat)
    vrate_pct := (ioc.vtime_rate : Rat) * 100 / (C.VTIME_PER_USEC : Rat)
    busy_level := ioc.busy_level
    autop_idx := ioc.autop_idx
    user_cost_model := ioc.user_cost_model
    user_qos_params := ioc.user_qos_params
    autop_name := autopName C ioc.autop_idx }

/-- The derived per-node statistics built by `IocgStat.__init__`
(iocost_monitor.py lines 141-173). -/
structure IocgStat where
  is_active : Bool
  weight : Int
  active : Int
  inuse : Int
  hwa_pct : Rat
  hwi_pct : Rat
  address : Nat
  inflight_pct : Rat
  debt_ms : Rat
  use_delay : Int
  delay_ms : Rat
  usages : List Rat
  usage : Rat
deriving DecidableEq

/-- Embeds `IocgStat.__init__`, field for field.  In the source `blkg` is reached as
`iocg.pd.blkg`; here the ambient blkg is passed alongside.  The `for i in
range(NR_USAGE_SLOTS)` loop reading `iocg.usages[(usage_idx + i) %
NR_USAGE_SLOTS]` becomes a map over `List.range`, and the running
`self.usage = max(self.usage, upct)` starting from `0` becomes a `foldl`. -/
def IocgStat.ofIocg (C : Consts) (ioc : IocRaw) (blkg : Blkg) (iocg : Iocg) :
    IocgStat :=
  let period_vtime : Int := ioc.period_us * ioc.vtime_rate
  let usagesPct : List Rat :=
    (List.range C.NR_USAGE_SLOTS).map (fun i =>
      ((iocg.usages.getD ((iocg.usage_idx + i) % C.NR_USAGE_SLOTS) 0 : Nat) :
          Rat) * 100 / (C.HWEIGHT_WHOLE : Rat))
  { is_active := !iocg.active_list_empty
    weight := iocg.weight
    active := iocg.active
    inuse := iocg.inuse
    hwa_pct := (iocg.hweight_active : Rat) * 100 / (C.HWEIGHT_WHOLE : Rat)
    hwi_pct := (iocg.hweight_inuse : Rat) * 100 / (C.HWEIGHT_WHOLE : Rat)
    address := iocg.address
    inflight_pct :=
      if period_vtime ≠ 0 then
        ((iocg.vtime - iocg.done_vtime : Int) : Rat) * 100 /
          (period_vtime : Rat)
      else 0
    debt_ms := (iocg.abs_vdebt : Rat) / (C.VTIME_PER_USEC : Rat) / 1000
    use_delay := blkg.use_delay
    delay_ms := (blkg.delay_nsec : Rat) / 1000000
    usages := usagesPct
    usage := usagesPct.foldl max 0 }

/-! ### Rendering helpers

Python's `round` and the fixed-point string formats round half to even;
`math.ceil` is `Int.ceil`.  The string builders below reproduce the exact
characters of the format strings the script uses, on the decimally-exact
`Rat` values our embedding produces. -/

/-- Python `round(q)`: nearest integer, ties to even. -/
def pyRound (q : Rat) : Int :=
  let f : Int := Int.floor q
  let r : Rat := q - (f : Rat)
  if r < 1/2 then f
  else if (1 : Rat)/2 < r then f + 1
  else if 2 ∣ f then f else f + 1

/-- The value displayed by a two-decimal fixed-point format. -/
def round2 (q : Rat) : Rat := (pyRound (q * 100) : Rat) / 100

/-- The value displayed by a three-decimal fixed-point format. -/
def round3 (q : Rat) : Rat := (pyRound (q * 1000) : Rat) / 1000

def padLeftWith (c : Char) (w : Nat) (s : String) : String :=
  if s.length < w then String.mk (List.replicate (w - s.length) c) ++ s else s

/-- Numeric formats right-align within the field width, padding with spaces. -/
def padLeft (w : Nat) (s : String) : String := padLeftWith ' ' w s

/-- String interpolations with a plain width left-align, padding with
spaces. -/
def padRight (w : Nat) (s : String) : String :=
  if s.length < w then s ++ String.mk (List.replicate (w - s.length) ' ') else s

/-- Fixed-point format with `prec` digits after the point. -/
def fmtFixed (prec : Nat) (q : Rat) : String :=
  let n : Int := pyRound (q * ((10 : Rat) ^ prec))
  let a : Nat := n.natAbs
  let ip : Nat := a / 10 ^ prec
  let fp : Nat := a % 10 ^ prec
  let s := toString ip ++
    (if prec = 0 then "" else "." ++ padLeftWith '0' prec (toString fp))
  if n < 0 then "-" ++ s else s

/-- The `+3` integer format: explicit sign, right-aligned in width 3. -/
def fmtSign3 (n : Int) : String :=
  padLeft 3 ((if n < 0 then "-" else "+") ++ toString n.natAbs)

/-- A width-`w` integer format. -/
def fmtInt (w : Nat) (n : Int) : String :=
  padLeft w (if n < 0 then "-" ++ toString n.natAbs else toString n.natAbs)

/-- The `03` integer format: zero-padded to width 3. -/
def fmtZero3 (n : Int) : String :=
  if n < 0 then "-" ++ padLeftWith '0' 2 (toString n.natAbs)
  else padLeftWith '0' 3 (toString n.natAbs)

/-- Fraction digits of `str(float)` for a value that is an exact short
decimal: emit digits until the remainder vanishes (fuel-bounded). -/
def fracDigits : Nat → Rat → String
  | 0, _ => ""
  | fuel + 1, r =>
    if r = 0 then ""
    else
      let r10 : Rat := r * 10
      let d : Int := Int.floor r10
      toString d.natAbs ++ fracDigits fuel (r10 - (d : Rat))

/-- Plain interpolation of a Python float holding an exact short decimal (the
script only interpolates `period_ms = period_us / 1000` this way): CPython
prints the shortest decimal, with at least one fractional digit. -/
def ratDecimalStr (q : Rat) : String :=
  let sgn := if q < 0 then "-" else ""
  let a : Rat := |q|
  let ip : Nat := (Int.floor a).toNat
  let fs := fracDigits 17 (a - (Int.floor a : Rat))
  sgn ++ toString ip ++ "." ++ (if fs = "" then "0" else fs)

/-- The `state` expression of `table_preamble_str` (line 125):
`RUN` / `IDLE` when enabled, `OFF` otherwise. -/
def IocStat.stateStr (s : IocStat) : String :=
  if s.enabled ≠ 0 then (if s.running then "RUN" else "IDLE") else "OFF"

/-- Embeds `IocStat.table_preamble_str` (lines 124-134), character for
character. -/
def IocStat.table_preamble_str (devname : String) (s : IocStat) : String :=
  let out :=
    devname ++ " " ++ padRight 4 s.stateStr ++ " " ++
    "per=" ++ ratDecimalStr s.period_ms ++ "ms " ++
    "cur_per=" ++ fmtFixed 3 s.period_at ++ ":v" ++
      fmtFixed 3 s.vperiod_at ++ " " ++
    "busy=" ++ fmtSign3 s.busy_level ++ " " ++
    "vrate=" ++ padLeft 6 (fmtFixed 2 s.vrate_pct) ++ "% " ++
    "params=" ++ s.autop_name
  if s.user_cost_model ≠ 0 ∨ s.user_qos_params ≠ 0 then
    out ++ "(" ++ (if s.user_cost_model ≠ 0 then "C" else "") ++
      (if s.user_qos_params ≠ 0 then "Q" else "") ++ ")"
  else out

/-! ### Numeric content of the two renderings

`IocgStat.dict` (lines 175-192) stringifies each derived value unchanged
(`str(self.debt_ms)`, ...); `table_row_str` (lines 194-206) applies capping
and rounding first.  The projections below capture the numbers each renderer
emits, with the `str()` wrapping (a typing contract, not arithmetic) left
aside. -/

/-- The numeric values `IocgStat.dict` stringifies, in field order.
`is_active` goes through `int(...)`. -/
structure IocgDictNums where
  is_active : Int
  weight : Int
  weight_active : Int
  weight_inuse : Int
  hweight_active_pct : Rat
  hweight_inuse_pct : Rat
  inflight_pct : Rat
  debt_ms : Rat
  use_delay : Int
  delay_ms : Rat
  usage_pct : Rat
  address : Nat
  usage_pct_slots : List Rat
deriving DecidableEq

def IocgStat.dictNums (s : IocgStat) : IocgDictNums :=
  { is_active := if s.is_active then 1 else 0
    weight := s.weight
    weight_active := s.active
    weight_inuse := s.inuse
    hweight_active_pct := s.hwa_pct
    hweight_inuse_pct := s.hwi_pct
    inflight_pct := s.inflight_pct
    debt_ms := s.debt_ms
    use_delay := s.use_delay
    delay_ms := s.delay_ms
    usage_pct := s.usage
    address := s.address
    usage_pct_slots := s.usages }

/-- The numeric values `table_row_str` renders, in column order: exact ints
for the weights, two-decimal roundings for the percentage columns,
`min(math.ceil(debt_ms), 999)`, `min(use_delay, 99)`,
`min(math.ceil(delay_ms), 999)`, and `min(round(u), 999)` per ring slot. -/
structure IocgTableNums where
  is_active : Bool
  inuse : Int
  active : Int
  hwi2 : Rat
  hwa2 : Rat
  inflt2 : Rat
  dbt : Int
  use_delay_capped : Int
  delay_capped : Int
  usage_slots : List Int
deriving DecidableEq

def IocgStat.tableNums (s : IocgStat) : IocgTableNums :=
  { is_active := s.is_active
    inuse := s.inuse
    active := s.active
    hwi2 := round2 s.hwi_pct
    hwa2 := round2 s.hwa_pct
    inflt2 := round2 s.inflight_pct
    dbt := min (Int.ceil s.debt_ms) 999
    use_delay_capped := min s.use_delay 99
    delay_capped := min (Int.ceil s.delay_ms) 999
    usage_slots := s.usages.map (fun u => min (pyRound u) 999) }

/-- The numeric values `IocStat.dict` (lines 113-122) stringifies. -/
structure IocDictNums where
  enabled : Int
  running : Int
  period_ms : Rat
  period_at : Rat
  period_vtime_at : Rat
  busy_level : Int
  vrate_pct : Rat
deriving DecidableEq

def IocStat.dictNums (s : IocStat) : IocDictNums :=
  -- `self.enabled` is already an int, so `int(self.enabled)` is the identity;
  -- `self.running` is a bool and `int(...)` maps it to 0/1.
  { enabled := s.enabled
    running := if s.running then 1 else 0
    period_ms := s.period_ms
    period_at := s.period_at
    period_vtime_at := s.vperiod_at
    busy_level := s.busy_level
    vrate_pct := s.vrate_pct }

/-- The numeric values `table_preamble_str` renders: the state label, the
exact period, the three-decimal period positions, the exact busy level and
the two-decimal rate percentage. -/
structure IocPreambleNums where
  state : String
  period_ms : Rat
  period_at3 : Rat
  vperiod_at3 : Rat
  busy_level : Int
  vrate2 : Rat
deriving DecidableEq

def IocStat.preambleNums (s : IocStat) : IocPreambleNums :=
  { state := s.stateStr
    period_ms := s.period_ms
    period_at3 := round3 s.period_at
    vperiod_at3 := round3 s.vperiod_at
    busy_level := s.busy_level
    vrate2 := round2 s.vrate_pct }

/-- Python `path[-28:]`: the last 28 characters (the whole string when
shorter). -/
def strTail (k : Nat) (s : String) : String :=
  String.mk (s.data.drop (s.data.length - k))

/-- Python `out.rstrip(':')`: drop every trailing colon. -/
def rstripColon (s : String) : String :=
  String.mk (s.data.reverse.dropWhile (fun c => c = ':')).reverse

/-- Embeds `IocgStat.table_row_str` (lines 194-206), character for
character: the
truncated path left-aligned to 28, the active marker, the weight pair, the
hweight pair, the inflight percentage, capped debt, capped delay columns and
the colon-separated capped ring slots with trailing colons stripped. -/
def IocgStat.table_row_str (s : IocgStat) (path : String) : String :=
  let out :=
    padRight 28 (strTail 28 path) ++ " " ++
    (if s.is_active then "*" else " ") ++ " " ++
    fmtInt 5 s.inuse ++ "/" ++ fmtInt 5 s.active ++ " " ++
    padLeft 6 (fmtFixed 2 s.hwi_pct) ++ "/" ++
      padLeft 6 (fmtFixed 2 s.hwa_pct) ++ " " ++
    padLeft 6 (fmtFixed 2 s.inflight_pct) ++ " " ++
    fmtInt 3 (min (Int.ceil s.debt_ms) 999) ++ " " ++
    fmtInt 2 (min s.use_delay 99) ++ "*" ++
    fmtZero3 (min (Int.ceil s.delay_ms) 999) ++ " "
  rstripColon
    (s.usages.foldl (fun acc u => acc ++ fmtZero3 (min (pyRound u) 999) ++ ":")
      out)

/-! ### The sampling loop's per-node filter and the startup resolution -/

/-- The `--cgroup` patterns, OR-combined: `re_str = r1 + '|' + r2 + ...` and
`filter_re = re.compile(re_str) if re_str else None` (lines 216-224).  A
compiled anchored regex is embedded as a `String → Bool` predicate
(`re.match` anchors at the start of the path); alternation of the joined
patterns is disjunction of the predicates. -/
def filterReOf (patterns : List (String → Bool)) : Option (String → Bool) :=
  match patterns with
  | [] => none
  | _ => some (fun path => patterns.any (fun f => f path))

/-- One iteration of the `for path, blkg in BlkgIterator(...)` body
(lines 258-268): drop the node when a filter is configured and does not match
the path; drop it when `blkg.pd[plid]` is null; build its `IocgStat`; drop it
when no filter is configured and it is not active; otherwise keep the row. -/
def tickKeep (filterRe : Option (String → Bool)) (C : Consts) (ioc : IocRaw)
    (path : String) (blkg : Blkg) : Option (String × IocgStat) :=
  match filterRe with
  | some f =>
    if !f path then none
    else
      match blkg.pd with
      | none => none
      | some iocg => some (path, IocgStat.ofIocg C ioc blkg iocg)
  | none =>
    match blkg.pd with
    | none => none
    | some iocg =>
      let stat := IocgStat.ofIocg C ioc blkg iocg
      if !stat.is_active then none else some (path, stat)

/-- The rows one sampling tick emits (in table mode as table rows, in json
mode as json objects): the walked nodes that survive `tickKeep`, in walk
order. -/
def tickRows (filterRe : Option (String → Bool)) (C : Consts) (ioc : IocRaw)
    (walked : List (String × Blkg)) : List (String × IocgStat) :=
  walked.filterMap (fun pb => tickKeep filterRe C ioc pb.1 pb.2)

/-- One entry of the root-level `radix_tree_for_each(blkcg_root.blkg_tree)`
scan (lines 231-241).  `qName = none` embeds the `try`/`except` case where
reading `blkg.q.kobj.parent.name` raises and the entry is skipped. -/
structure DevEntry where
  qName : Option String
  qId : Nat
  pd : Option Iocg
deriving DecidableEq

/-- The root-resolution loop: scan the entries in order; an unreadable entry
is skipped; the first entry whose queue name equals `devname` stops the scan,
yielding its queue id and (when `blkg.pd[plid]` is non-null) the iocg whose
`ioc` the loop would take. -/
def locateIoc (devname : String) : List DevEntry → Option Nat × Option Iocg
  | [] => (none, none)
  | e :: rest =>
    match e.qName with
    | none => locateIoc devname rest
    | some nm =>
      if nm = devname then (some e.qId, e.pd) else locateIoc devname rest

/-- The observable outcome of startup: either `err(...)` fired — one line on
stderr and `sys.exit` with the given status — or the program enters the
sampling loop with the resolved queue id and root iocg. -/
inductive ProgOutcome where
  | fatal : String → Nat → ProgOutcome
  | sampling : Nat → Iocg → ProgOutcome
deriving DecidableEq

/-- Lines 243-247: `if ioc is None: err(f'Could not find ioc for {devname}')`
— `err` prints to stderr and exits with status 1 — otherwise the infinite
sampling loop starts. -/
def startProgram (devname : String) (entries : List DevEntry) : ProgOutcome :=
  match locateIoc devname entries with
  | (some qid, some iocg) => .sampling qid iocg
  | _ => .fatal ("Could not find ioc for " ++ devname) 1

/-! ### Substring occurrence, used to state what a rendered line shows -/

/-- Holds when `pat` occurs at the start of `s`. -/
def startsWithPat : List Char → List Char → Bool
  | _, [] => true
  | [], _ :: _ => false
  | a :: s, b :: p => a == b && startsWithPat s p

/-- Holds when `pat` occurs somewhere in `s`. -/
def hasPatL (pat : List Char) : List Char → Bool
  | [] => startsWithPat [] pat
  | c :: t => startsWithPat (c :: t) pat || hasPatL pat t

/-- Holds when `pat` occurs somewhere in the string `s`. -/
def strHasPat (s pat : String) : Bool := hasPatL pat.data s.data

/-! ### Concrete fixtures used by witnesses and counterexamples -/

/-- A small but plausible set of kernel constants for concrete runs. -/
def constsA : Consts :=
  { IOC_RUNNING := 2, NR_USAGE_SLOTS := 3, HWEIGHT_WHOLE := 100,
    VTIME_PER_SEC := 100000000, VTIME_PER_USEC := 100,
    AUTOP_SSD_FAST := 0, AUTOP_SSD_DFL := 1, AUTOP_SSD_QD1 := 2,
    AUTOP_HDD := 3 }

/-- Constants with one vtime tick per microsecond (the debt example). -/
def constsTick1 : Consts := { constsA with VTIME_PER_USEC := 1 }

/-- A controller snapshot with a zero period. -/
def iocZeroPeriod : IocRaw :=
  { enabled := 1, running := 2, period_us := 0, period_at := 0,
    period_at_vtime := 0, vtime_rate := 100, busy_level := 0, autop_idx := 1,
    user_cost_model := 0, user_qos_params := 0 }

/-- A controller snapshot with a 100ms period and the nominal rate. -/
def iocNominal : IocRaw := { iocZeroPeriod with period_us := 100000 }

/-- The preamble-example controller: enabled, running, 100ms period,
busy level -5, rate equal to nominal. -/
def iocBusy : IocRaw := { iocNominal with busy_level := -5 }

/-- An accounting-node fixture. -/
def iocgA : Iocg :=
  { active_list_empty := false, weight := 100, active := 100, inuse := 50,
    hweight_active := 100, hweight_inuse := 50, address := 51966,
    done_vtime := 500, vtime := 700, abs_vdebt := 0, usage_idx := 1,
    usages := [10, 50, 200] }

/-- The debt-example node: 2,500,001 raw ticks of debt. -/
def iocgDebt : Iocg := { iocgA with abs_vdebt := 2500001 }

def blkgA : Blkg := { pd := some iocgA, use_delay := 0, delay_nsec := 0 }

def blkgDebt : Blkg := { pd := some iocgDebt, use_delay := 0, delay_nsec := 0 }

def blkgNoPd : Blkg := { pd := none, use_delay := 0, delay_nsec := 0 }

/-- A hierarchy whose online root (with a blkg for queue 0) has an offline
child `c`; `c` has an online grandchild `g`, and both carry blkgs for
queue 0. -/
def treeOfflineChild : Blkcg :=
  .mk "" true [(0, blkgA)]
    [.mk "c" false [(0, blkgA)] [.mk "g" true [(0, blkgA)] []]]

/-- A hierarchy whose online root has no blkg for queue 0 while its online
child `c` has one. -/
def treeRootNoBlkg : Blkcg :=
  .mk "" true [] [.mk "c" true [(0, blkgA)] []]

/-- The anchored pattern `^db/` of the spec example, as the predicate a
compiled regex denotes. -/
def dbPred : String → Bool := fun p => startsWithPat p.data "db/".data

/-! ### `foldl max` facts, for the ring-maximum derivation -/

theorem init_le_foldl_max (l : List Rat) (a : Rat) : a ≤ l.foldl max a := by
  induction l generalizing a with
  | nil => simp
  | cons x t ih => exact le_trans (le_max_left a x) (ih (max a x))

theorem le_foldl_max (l : List Rat) (a x : Rat) (hx : x ∈ l) :
    x ≤ l.foldl max a := by
  induction l generalizing a with
  | nil => simp at hx
  | cons y t ih =>
    rcases List.mem_cons.mp hx with rfl | hx
    · exact le_trans (le_max_right a x) (init_le_foldl_max t (max a x))
    · exact ih (max a y) hx

theorem foldl_max_mem (l : List Rat) (a : Rat) :
    l.foldl max a = a ∨ l.foldl max a ∈ l := by
  induction l generalizing a with
  | nil => simp
  | cons y t ih =>
    have hfold : (y :: t).foldl max a = t.foldl max (max a y) := rfl
    rcases ih (max a y) with h | h
    · rcases max_cases a y with ⟨hm, _⟩ | ⟨hm, _⟩
      · left; rw [hfold, h, hm]
      · right; rw [hfold, h, hm]; exact List.mem_cons_self y t
    · right; rw [hfold]; exact List.mem_cons_of_mem y h

/-! ### Claim theorems -/

/-- C3: for every node derivation, a zero `period_vtime`
(`period_us * vtime_rate`) yields `inflight_pct = 0` exactly, with no
division fault; a nonzero `period_vtime` yields
`inflight_pct = (vtime - done_vtime) * 100 / period_vtime`. -/
theorem inflight_pct_zero_guard (C : Consts) (ioc : IocRaw) (blkg : Blkg)
    (iocg : Iocg) :
    (ioc.period_us * ioc.vtime_rate = 0 →
      (IocgStat.ofIocg C ioc blkg iocg).inflight_pct = 0) ∧
    (ioc.period_us * ioc.vtime_rate ≠ 0 →
      (IocgStat.ofIocg C ioc blkg iocg).inflight_pct =
        ((iocg.vtime - iocg.done_vtime : Int) : Rat) * 100 /
          ((ioc.period_us * ioc.vtime_rate : Int) : Rat)) := by
  constructor <;> intro h <;> simp [IocgStat.ofIocg, h]

/-- Witness for C3 at concrete inputs: a zero-period controller gives
`inflight_pct = 0`, and the nominal controller gives the quotient. -/
theorem inflight_pct_zero_guard_w :
    (IocgStat.ofIocg constsA iocZeroPeriod blkgA iocgA).inflight_pct = 0 ∧
    (IocgStat.ofIocg constsA iocNominal blkgA iocgA).inflight_pct =
      ((iocgA.vtime - iocgA.done_vtime : Int) : Rat) * 100 /
        ((iocNominal.period_us * iocNominal.vtime_rate : Int) : Rat) :=
  ⟨(inflight_pct_zero_guard constsA iocZeroPeriod blkgA iocgA).1 (by decide),
   (inflight_pct_zero_guard constsA iocNominal blkgA iocgA).2 (by decide)⟩

/-- C5: with rotation index `usage_idx` and slot count `NR_USAGE_SLOTS = N`,
the derived ring has length exactly `N`, its `i`-th logical entry is storage
slot `(usage_idx + i) % N` scaled by `* 100 / HWEIGHT_WHOLE`, and the node's
single `usage` figure is the maximum over the ring. -/
theorem usage_ring_spec (C : Consts) (ioc : IocRaw) (blkg : Blkg) (iocg : Iocg)
    (hN : 0 < C.NR_USAGE_SLOTS) :
    (IocgStat.ofIocg C ioc blkg iocg).usages.length = C.NR_USAGE_SLOTS ∧
    (∀ i, i < C.NR_USAGE_SLOTS →
      (IocgStat.ofIocg C ioc blkg iocg).usages.getD i 0 =
        ((iocg.usages.getD ((iocg.usage_idx + i) % C.NR_USAGE_SLOTS) 0 : Nat) :
            Rat) * 100 / (C.HWEIGHT_WHOLE : Rat)) ∧
    (IocgStat.ofIocg C ioc blkg iocg).usage ∈
      (IocgStat.ofIocg C ioc blkg iocg).usages ∧
    (∀ u ∈ (IocgStat.ofIocg C ioc blkg iocg).usages,
      u ≤ (IocgStat.ofIocg C ioc blkg iocg).usage) := by
  have husages : (IocgStat.ofIocg C ioc blkg iocg).usages =
      (List.range C.NR_USAGE_SLOTS).map (fun i =>
        ((iocg.usages.getD ((iocg.usage_idx + i) % C.NR_USAGE_SLOTS) 0 : Nat) :
            Rat) * 100 / (C.HWEIGHT_WHOLE : Rat)) := rfl
  have husage : (IocgStat.ofIocg C ioc blkg iocg).usage =
      (IocgStat.ofIocg C ioc blkg iocg).usages.foldl max 0 := rfl
  have hnonneg : ∀ u ∈ (IocgStat.ofIocg C ioc blkg iocg).usages, 0 ≤ u := by
    intro u hu
    rw [husages] at hu
    rcases List.mem_map.mp hu with ⟨i, _, rfl⟩
    positivity
  refine ⟨by rw [husages]; simp, ?_, ?_, ?_⟩
  · intro i hi
    rw [husages, List.getD_eq_getElem?_getD, List.getElem?_map,
      List.getElem?_range hi]
    rfl
  · rcases foldl_max_mem (IocgStat.ofIocg C ioc blkg iocg).usages 0 with h0 | hm
    · have hne : (IocgStat.ofIocg C ioc blkg iocg).usages ≠ [] := by
        rw [husages]
        simpa using Nat.pos_iff_ne_zero.mp hN
      rcases List.exists_mem_of_ne_nil _ hne with ⟨x, hx⟩
      have hx0 : x ≤ 0 := by
        have := le_foldl_max (IocgStat.ofIocg C ioc blkg iocg).usages 0 x hx
        rwa [h0] at this
      have h0x : (0 : Rat) ≤ x := hnonneg x hx
      have : (IocgStat.ofIocg C ioc blkg iocg).usage = x := by
        rw [husage, h0]
        exact (le_antisymm hx0 h0x).symm
      rwa [this]
    · rwa [husage]
  · intro u hu
    rw [husage]
    exact le_foldl_max _ 0 u hu

/-- Witness for C5 at a concrete three-slot ring, with the slot formula
instantiated at logical index 0. -/
theorem usage_ring_spec_w :
    (IocgStat.ofIocg constsA iocNominal blkgA iocgA).usages.length =
      constsA.NR_USAGE_SLOTS ∧
    (IocgStat.ofIocg constsA iocNominal blkgA iocgA).usages.getD 0 0 =
      ((iocgA.usages.getD ((iocgA.usage_idx + 0) % constsA.NR_USAGE_SLOTS) 0 :
          Nat) : Rat) * 100 / (constsA.HWEIGHT_WHOLE : Rat) ∧
    (IocgStat.ofIocg constsA iocNominal blkgA iocgA).usage ∈
      (IocgStat.ofIocg constsA iocNominal blkgA iocgA).usages :=
  have h := usage_ring_spec constsA iocNominal blkgA iocgA (by decide)
  ⟨h.1, h.2.1 0 (by decide), h.2.2.1⟩

/-- C1 (amended): with `includeDying = false`, a hierarchy member that is not
marked online is skipped together with its entire subtree — the walk
contributes nothing, so no descendant is visited or added to the output. -/
theorem walk_offline_prunes_subtree (qid : Nat) (blkcg : Blkcg) (pp : String)
    (h : blkcg.online = false) :
    BlkgIterator.walk false qid blkcg pp = [] := by
  cases blkcg with
  | mk nm onl tree children =>
    simp only [Blkcg.online] at h
    simp [BlkgIterator.walk, h]

/-- Witness for C1 (amended) at the concrete offline child of the fixture
tree. -/
theorem walk_offline_prunes_subtree_w :
    BlkgIterator.walk false 0
      (Blkcg.mk "c" false [(0, blkgA)] [Blkcg.mk "g" true [(0, blkgA)] []])
      "" = [] :=
  walk_offline_prunes_subtree 0
    (Blkcg.mk "c" false [(0, blkgA)] [Blkcg.mk "g" true [(0, blkgA)] []])
    "" (by decide)

/-- C1 counterexample: in `treeOfflineChild`, the offline member `c` has the
online descendant `g` with an accounting node for the target queue; the claim
says descendants of a skipped member are still visited and may appear, but
the walk yields only the root — `c/g` is absent. -/
theorem walk_offline_visits_descendants_cex :
    (Blkcg.mk "g" true [(0, blkgA)] []).online = true ∧
    lookupTree (Blkcg.mk "g" true [(0, blkgA)] []).blkgTree 0 = some blkgA ∧
    BlkgIterator.blkgs treeOfflineChild 0 = [("/", blkgA)] ∧
    ("c/g", blkgA) ∉ BlkgIterator.blkgs treeOfflineChild 0 ∧
    ¬ "c/g" ∈ (BlkgIterator.blkgs treeOfflineChild 0).map Prod.fst := by
  exact ⟨rfl, rfl, by decide, by decide, by decide⟩

/-- C2 (amended): a member whose device-indexed blkg lookup finds none (a
null address) is not added to the output, and the walker does not recurse
into its children either — the whole subtree is pruned. -/
theorem walk_missing_blkg_prunes_subtree (includeDying : Bool) (qid : Nat)
    (blkcg : Blkcg) (pp : String)
    (h : lookupTree blkcg.blkgTree qid = none) :
    BlkgIterator.walk includeDying qid blkcg pp = [] := by
  cases blkcg with
  | mk nm onl tree children =>
    simp only [Blkcg.blkgTree] at h
    simp [BlkgIterator.walk, h]

/-- Witness for C2 (amended) at the concrete fixture root without a blkg. -/
theorem walk_missing_blkg_prunes_subtree_w :
    BlkgIterator.walk false 0 treeRootNoBlkg "" = [] :=
  walk_missing_blkg_prunes_subtree false 0 treeRootNoBlkg "" (by decide)

/-- C2 counterexample: in `treeRootNoBlkg` the root's lookup finds no
accounting node while its child `c` has one; the claim says the walker still
recurses so `c` appears, but the walk is empty. -/
theorem walk_missing_blkg_recurses_cex :
    lookupTree treeRootNoBlkg.blkgTree 0 = none ∧
    lookupTree (Blkcg.mk "c" true [(0, blkgA)] []).blkgTree 0 = some blkgA ∧
    BlkgIterator.blkgs treeRootNoBlkg 0 = [] ∧
    ¬ "c" ∈ (BlkgIterator.blkgs treeRootNoBlkg 0).map Prod.fst := by
  exact ⟨rfl, rfl, by decide, by decide⟩

/-- C9: when the named device resolves to no controller instance, startup
ends in `err(...)`: one message naming the device on the error stream and
termination with the non-zero status 1 — the sampling loop is never
entered. -/
theorem resolve_failure_fatal (devname : String) (entries : List DevEntry)
    (h : (locateIoc devname entries).2 = none) :
    startProgram devname entries =
      ProgOutcome.fatal ("Could not find ioc for " ++ devname) 1 ∧
    (1 : Nat) ≠ 0 ∧
    (∀ qid iocg, startProgram devname entries ≠
      ProgOutcome.sampling qid iocg) := by
  have hfatal : startProgram devname entries =
      ProgOutcome.fatal ("Could not find ioc for " ++ devname) 1 := by
    unfold startProgram
    rcases hloc : locateIoc devname entries with ⟨q, i⟩
    rw [hloc] at h
    simp only at h
    subst h
    cases q <;> rfl
  refine ⟨hfatal, by decide, ?_⟩
  intro qid iocg hcontra
  rw [hfatal] at hcontra
  exact ProgOutcome.noConfusion hcontra

/-- Witness for C9: an entry list whose only readable entry is another
device. -/
theorem resolve_failure_fatal_w :
    startProgram "sda"
      [{ qName := some "sdb", qId := 7, pd := some iocgA },
       { qName := none, qId := 9, pd := some iocgA }] =
      ProgOutcome.fatal ("Could not find ioc for " ++ "sda") 1 :=
  (resolve_failure_fatal "sda"
    [{ qName := some "sdb", qId := 7, pd := some iocgA },
     { qName := none, qId := 9, pd := some iocgA }] (by decide)).1

/-- C10: a walked node whose blkg exists but whose per-policy slot
`blkg.pd[plid]` is null is dropped by the sampling loop's own check — in
both output modes, silently (the per-node filter is a total function) — and
its presence among the walked nodes does not change what the other nodes
contribute to the tick. -/
theorem null_pd_silently_skipped (filterRe : Option (String → Bool))
    (C : Consts) (ioc : IocRaw) (path : String) (blkg : Blkg)
    (h : blkg.pd = none) (l1 l2 : List (String × Blkg)) :
    tickKeep filterRe C ioc path blkg = none ∧
    tickRows filterRe C ioc (l1 ++ (path, blkg) :: l2) =
      tickRows filterRe C ioc (l1 ++ l2) := by
  have hdrop : tickKeep filterRe C ioc path blkg = none := by
    cases filterRe with
    | none => simp [tickKeep, h]
    | some f =>
      by_cases hf : f path = true
      · simp [tickKeep, hf, h]
      · simp [tickKeep, hf]
  refine ⟨hdrop, ?_⟩
  simp [tickRows, List.filterMap_append, List.filterMap_cons, hdrop]

/-- Witness for C10: with no filter configured, a concrete node without
policy data is dropped and leaves the other rows of the tick unchanged. -/
theorem null_pd_silently_skipped_w :
    tickKeep none constsA iocNominal "a" blkgNoPd = none ∧
    tickRows none constsA iocNominal
      [("a", blkgNoPd), ("b", blkgA)] =
      tickRows none constsA iocNominal [("b", blkgA)] := by
  have := null_pd_silently_skipped none constsA iocNominal "a" blkgNoPd
    (by decide) [] [("b", blkgA)]
  simpa using this

/-- C4 (amended): a walked node is kept for output iff its blkg carries
policy data and, when at least one pattern is configured, the OR-combination
of the anchored patterns matches its path (the active flag being ignored),
or, when no pattern is configured, its `is_active` flag is set (the active
list is non-empty). -/
theorem emit_filter_policy (patterns : List (String → Bool)) (C : Consts)
    (ioc : IocRaw) (path : String) (blkg : Blkg) :
    (tickKeep (filterReOf patterns) C ioc path blkg).isSome = true ↔
      ∃ iocg, blkg.pd = some iocg ∧
        ((patterns ≠ [] ∧ patterns.any (fun f => f path) = true) ∨
         (patterns = [] ∧ iocg.active_list_empty = false)) := by
  cases patterns with
  | nil =>
    cases hpd : blkg.pd with
    | none => simp [filterReOf, tickKeep, hpd]
    | some iocg =>
      have hact : (IocgStat.ofIocg C ioc blkg iocg).is_active =
          !iocg.active_list_empty := rfl
      cases hae : iocg.active_list_empty with
      | false => simp [filterReOf, tickKeep, hpd, hact, hae]
      | true => simp [filterReOf, tickKeep, hpd, hact, hae]
  | cons f fs =>
    have hred : tickKeep (filterReOf (f :: fs)) C ioc path blkg =
        (if !((f :: fs).any fun g => g path) then none
         else
           match blkg.pd with
           | none => none
           | some iocg => some (path, IocgStat.ofIocg C ioc blkg iocg)) := rfl
    rw [hred]
    cases hmatch : ((f :: fs).any fun g => g path) with
    | false => simp
    | true =>
      cases hpd : blkg.pd with
      | none => simp [hpd]
      | some iocg => simp [hpd]

/-- C4 counterexample, the spec's own example: pattern `^db/` matches the
path `db/a`, yet a walked node at `db/a` whose blkg carries no policy data
is not emitted — appearing in the output is not equivalent to the pattern
matching. -/
theorem emit_filter_policy_cex :
    dbPred "db/a" = true ∧
    [dbPred].any (fun f => f "db/a") = true ∧
    tickKeep (filterReOf [dbPred]) constsA iocNominal "db/a" blkgNoPd =
      none := by
  refine ⟨by decide, by decide, rfl⟩

/-- C6 counterexample: with a debt of 2,500,001 raw ticks and 1 tick per
microsecond, `debt_ms = 2500001/1/1000 = 2500.001`, so the table's debt
column (ceiling capped at 999) shows 999 — not 3 as the claim states. -/
theorem debt_example_cex :
    (IocgStat.ofIocg constsTick1 iocNominal blkgDebt iocgDebt).debt_ms =
      (2500001 : Rat) / 1 / 1000 ∧
    (IocgStat.ofIocg constsTick1 iocNominal blkgDebt iocgDebt).tableNums.dbt
      = 999 ∧
    (999 : Int) ≠ 3 :=
  ⟨by decide, by decide, by decide⟩

/-- C6 (amended): for a node with 2,500,001 raw ticks of debt at 1 tick per
microsecond, structured mode emits the exact fractional
`debt_ms = abs_debt_ticks / ticks_per_usec / 1000 = 2500.001`, while the
table-mode debt column shows 999: the ceiling of `debt_ms`, capped at 999
for display. -/
theorem debt_example_amended :
    (IocgStat.ofIocg constsTick1 iocNominal blkgDebt iocgDebt).dictNums.debt_ms
      = (2500001 : Rat) / 1 / 1000 ∧
    (IocgStat.ofIocg constsTick1 iocNominal blkgDebt iocgDebt).dictNums.debt_ms
      = (2500001 : Rat) / 1000 ∧
    (IocgStat.ofIocg constsTick1 iocNominal blkgDebt iocgDebt).tableNums.dbt
      = min (Int.ceil ((2500001 : Rat) / 1000)) 999 ∧
    (IocgStat.ofIocg constsTick1 iocNominal blkgDebt iocgDebt).tableNums.dbt
      = 999 ∧
    fmtInt 3
      (IocgStat.ofIocg constsTick1 iocNominal blkgDebt iocgDebt).tableNums.dbt
      = "999" :=
  ⟨by decide, by decide, by decide, by decide, by decide⟩

/-- C7: for every snapshot, the numeric content of the table rendering
equals the numeric content of the structured rendering up to the documented
table-only rules — exact integers for the weights and busy level, ceiling
plus a 999 cap for debt and delay, a 99 cap for the delay-use counter,
round-to-nearest plus a 999 cap for ring slots, and two/three-decimal
rounding for the percentage and period columns — for both the node record
and the controller record. -/
theorem renderers_agree (s : IocgStat) (t : IocStat) :
    s.tableNums.inuse = s.dictNums.weight_inuse ∧
    s.tableNums.active = s.dictNums.weight_active ∧
    s.tableNums.hwi2 = round2 s.dictNums.hweight_inuse_pct ∧
    s.tableNums.hwa2 = round2 s.dictNums.hweight_active_pct ∧
    s.tableNums.inflt2 = round2 s.dictNums.inflight_pct ∧
    s.tableNums.dbt = min (Int.ceil s.dictNums.debt_ms) 999 ∧
    s.tableNums.use_delay_capped = min s.dictNums.use_delay 99 ∧
    s.tableNums.delay_capped = min (Int.ceil s.dictNums.delay_ms) 999 ∧
    s.tableNums.usage_slots =
      s.dictNums.usage_pct_slots.map (fun u => min (pyRound u) 999) ∧
    (s.tableNums.is_active = true ↔ s.dictNums.is_active = 1) ∧
    t.preambleNums.period_ms = t.dictNums.period_ms ∧
    t.preambleNums.period_at3 = round3 t.dictNums.period_at ∧
    t.preambleNums.vperiod_at3 = round3 t.dictNums.period_vtime_at ∧
    t.preambleNums.busy_level = t.dictNums.busy_level ∧
    t.preambleNums.vrate2 = round2 t.dictNums.vrate_pct ∧
    (t.preambleNums.state = "OFF" ↔ t.dictNums.enabled = 0) ∧
    (t.preambleNums.state = "RUN" ↔
      (t.dictNums.enabled ≠ 0 ∧ t.dictNums.running = 1)) := by
  refine ⟨rfl, rfl, rfl, rfl, rfl, rfl, rfl, rfl, rfl, ?_, rfl, rfl, rfl,
    rfl, rfl, ?_, ?_⟩
  · cases h : s.is_active <;>
      simp [IocgStat.tableNums, IocgStat.dictNums, h]
  · by_cases he : t.enabled = 0 <;> cases hr : t.running <;>
      simp [IocStat.preambleNums, IocStat.dictNums, IocStat.stateStr, he, hr]
  · by_cases he : t.enabled = 0 <;> cases hr : t.running <;>
      simp [IocStat.preambleNums, IocStat.dictNums, IocStat.stateStr, he, hr]

/-- C8 counterexample: for the example controller (`enabled=1`, running,
`period_us=100000`, `busy_level=-5`, rate equal to nominal) the preamble
renders the busy level with the sign-aware width-3 format, producing
`busy= -5`; the substring `busy=-5` claimed by the spec does not occur. -/
theorem preamble_example_cex :
    IocStat.table_preamble_str "sda" (IocStat.ofIoc constsA iocBusy) =
      "sda RUN  per=100.0ms cur_per=0.000:v0.000 busy= -5 " ++
        "vrate=100.00% params=ssd_dfl" ∧
    strHasPat (IocStat.table_preamble_str "sda" (IocStat.ofIoc constsA iocBusy))
      "busy=-5" = false :=
  ⟨by decide, by decide⟩

/-- C8 (amended): for the example controller the preamble shows state `RUN`
and contains `per=100.0ms`, `busy= -5` (the busy level is rendered
sign-padded to width 3, so there is a space after the `=`) and
`vrate=100.00%`; in general the state label is `OFF` when not enabled,
otherwise `RUN` when running and `IDLE` when not. -/
theorem preamble_example_amended :
    (IocStat.ofIoc constsA iocBusy).stateStr = "RUN" ∧
    strHasPat (IocStat.table_preamble_str "sda" (IocStat.ofIoc constsA iocBusy))
      "per=100.0ms" = true ∧
    strHasPat (IocStat.table_preamble_str "sda" (IocStat.ofIoc constsA iocBusy))
      "busy= -5" = true ∧
    strHasPat (IocStat.table_preamble_str "sda" (IocStat.ofIoc constsA iocBusy))
      "vrate=100.00%" = true ∧
    (∀ u : IocStat,
      (u.enabled = 0 → u.stateStr = "OFF") ∧
      (u.enabled ≠ 0 ∧ u.running = true → u.stateStr = "RUN") ∧
      (u.enabled ≠ 0 ∧ u.running = false → u.stateStr = "IDLE")) := by
  refine ⟨by decide, by decide, by decide, by decide, ?_⟩
  intro u
  refine ⟨fun h => ?_, fun h => ?_, fun h => ?_⟩
  · simp [IocStat.stateStr, h]
  · simp [IocStat.stateStr, h.1, h.2]
  · simp [IocStat.stateStr, h.1, h.2]

/-- Witness for C8 (amended): the state-label clause applied to concrete
disabled and idle controllers. -/
theorem preamble_example_amended_w :
    (IocStat.ofIoc constsA { iocBusy with enabled := 0 }).stateStr = "OFF" ∧
    (IocStat.ofIoc constsA { iocBusy with running := 0 }).stateStr = "IDLE" :=
  ⟨(preamble_example_amended.2.2.2.2
      (IocStat.ofIoc constsA { iocBusy with enabled := 0 })).1 (by decide),
   (preamble_example_amended.2.2.2.2
      (IocStat.ofIoc constsA { iocBusy with running := 0 })).2.2
    ⟨by decide, by decide⟩⟩
